import Mathlib

/-!
Verification of the execution-pipeline coordinator of the CrewAI trading
repository (files main_debug.py and verify_setup.py).

The coordinator in main_debug.py is embedded shallowly: each external
collaborator (market-data fetch, analyst factory, forecast fetch, symbol
processing) is a value of type Except String _, mirroring a Python call
that either returns a value or raises an exception; the coordinator
run_async_execution_debug is a pure Lean function over those collaborators
that returns the run trace (the process-stock-symbol calls made, in
order), the per-symbol outcomes, and the process exit status (1 when the
Python code reaches sys.exit(1), 0 when the function returns normally).
Console printing is abstracted away except where a claim is about the
reported content, in which case the reported data is part of the result.
-/

namespace TradingCrew

/- Payload types of the external collaborators are opaque to the
coordinator; the development is parametric in them. V is the VIX series,
G the global-market payload, A an agent handle, T a task handle, F the
TimeGPT forecast table. -/
variable {V G A T F : Type}

/-- One invocation of process_stock_symbol_async, recording the symbol and
the optional keyword arguments (main_debug.py lines 129-135 pass all four;
line 143 and line 215 pass none). -/
structure ProcessCall (V G A T : Type) where
  symbol : String
  vixData : Option V
  globalMarketData : Option G
  additionalAgents : List A
  additionalTasks : List T
deriving DecidableEq

/-- The collaborators called by run_async_execution_debug, each one an
Except mirroring a Python call that returns or raises. getVix embeds
HistoricalMarketFetcher().get_vix(days=30), getGlobalMarket embeds
get_global_market(days=30), getAgentAndTask embeds
MarketOverviewAnalyst().get_agent_and_task(), getTimegptForecast embeds
get_timegpt_forecast(), and processStockSymbol embeds
process_stock_symbol_async applied to the recorded arguments. -/
structure Collaborators (V G A T F : Type) where
  getVix : Except String V
  getGlobalMarket : Except String G
  getAgentAndTask : Except String (A × T)
  getTimegptForecast : Except String F
  processStockSymbol : ProcessCall V G A T → Except String Unit

/-- Per-symbol result of the step-5 loop: the code prints a completed line
on success and a failed line with the exception text on failure
(main_debug.py lines 144-147). -/
inductive Outcome where
  | success : String → Outcome
  | failed : String → String → Outcome
deriving DecidableEq

/-- The symbol an outcome is about. -/
def Outcome.symbol : Outcome → String
  | .success s => s
  | .failed s _ => s

/-- Observable result of one run of run_async_execution_debug: every
process_stock_symbol_async call made (in order), the per-symbol outcomes
recorded (overview first), and the process exit status. -/
structure RunResult (V G A T : Type) where
  calls : List (ProcessCall V G A T)
  outcomes : List Outcome
  exitStatus : Nat
deriving DecidableEq

/-- The argument shape of a plain per-symbol call: no keyword arguments
(main_debug.py line 143, await process_stock_symbol_async(symbol)). -/
def plainCall (s : String) : ProcessCall V G A T :=
  ⟨s, none, none, [], []⟩

/-- The argument shape of the overview call: VIX data, global market data,
and the single extra agent and task from the market analyst
(main_debug.py lines 129-135). -/
def overviewCall (ov : String) (v : V) (gm : G) (ag : A) (tk : T) :
    ProcessCall V G A T :=
  ⟨ov, some v, some gm, [ag], [tk]⟩

/-- Outcome of one iteration of the step-5 loop (main_debug.py lines
142-147): the call either completes, or its exception is caught and the
symbol is reported failed with the exception text. -/
def loopOutcome (c : Collaborators V G A T F) (s : String) : Outcome :=
  match c.processStockSymbol (plainCall s) with
  | .ok _ => .success s
  | .error e => .failed s e

/-- Embedding of run_async_execution_debug (main_debug.py lines 99-173).
The whole body sits in one try block whose except handler calls
sys.exit(1); steps 1-3 (VIX, global market, analyst, forecast) and the
step-4 overview call therefore abort the run on any exception, while each
iteration of the step-5 loop has its own inner try/except and never
escapes. The function returns the calls made, the outcomes recorded and
the exit status. -/
def run_async_execution_debug (c : Collaborators V G A T F) (ov : String)
    (syms : List String) : RunResult V G A T :=
  match c.getVix with
  | .error _ => ⟨[], [], 1⟩
  | .ok v =>
    match c.getGlobalMarket with
    | .error _ => ⟨[], [], 1⟩
    | .ok gm =>
      match c.getAgentAndTask with
      | .error _ => ⟨[], [], 1⟩
      | .ok p =>
        match c.getTimegptForecast with
        | .error _ => ⟨[], [], 1⟩
        | .ok _ =>
          match c.processStockSymbol (overviewCall ov v gm p.1 p.2) with
          | .error _ => ⟨[overviewCall ov v gm p.1 p.2], [], 1⟩
          | .ok _ =>
            ⟨overviewCall ov v gm p.1 p.2 :: syms.map plainCall,
             Outcome.success ov :: syms.map (loopOutcome c),
             0⟩

/-- Fatality predicate derived from a run configuration: true exactly when
one of the four setup fetches or the overview call raises, i.e. when the
single try block of run_async_execution_debug reaches its except handler
and sys.exit(1) (main_debug.py lines 166-173). -/
def fatalError (c : Collaborators V G A T F) (ov : String) : Bool :=
  match c.getVix with
  | .error _ => true
  | .ok v =>
    match c.getGlobalMarket with
    | .error _ => true
    | .ok gm =>
      match c.getAgentAndTask with
      | .error _ => true
      | .ok p =>
        match c.getTimegptForecast with
        | .error _ => true
        | .ok _ => !(c.processStockSymbol (overviewCall ov v gm p.1 p.2)).toBool

/-- The six environment variables required by check_environment
(main_debug.py lines 22-29). -/
def required_vars : List String :=
  ["OPENROUTER_API_KEY", "OPENROUTER_LLAMA_4", "OPENROUTER_BASE_URL",
   "TWELVE_API_KEY", "TIMEGPT_API_KEY", "RAPID_API_KEY"]

/-- Python truthiness of os.getenv(var): falsy when the variable is unset
(None) or set to the empty string (main_debug.py line 33). -/
def envTruthy (env : String → Option String) (v : String) : Bool :=
  match env v with
  | none => false
  | some s => !(s == "")

/-- The missing_vars list built by check_environment (main_debug.py lines
31-34). -/
def missing_vars (env : String → Option String) : List String :=
  required_vars.filter (fun v => !(envTruthy env v))

/-- Result of check_environment: the function either calls sys.exit(1)
when any required variable is falsy, or returns True
(main_debug.py lines 36-44). -/
inductive CheckEnvResult where
  | exitOne
  | passed
deriving DecidableEq

/-- Embedding of check_environment (main_debug.py lines 20-44). -/
def check_environment (env : String → Option String) : CheckEnvResult :=
  if missing_vars env = [] then .passed else .exitOne

/-- Observable result of the full entry point run(): either the process
exited during pre-flight checks with the given status, before the async
pipeline started, or the pipeline ran and produced a RunResult. -/
inductive FullRunOutcome (V G A T : Type) where
  | preflightExit : Nat → FullRunOutcome V G A T
  | pipelineRun : RunResult V G A T → FullRunOutcome V G A T
deriving DecidableEq

/-- The process_stock_symbol_async calls made during a full run: none when
the run exited in pre-flight. -/
def FullRunOutcome.callsMade : FullRunOutcome V G A T → List (ProcessCall V G A T)
  | .preflightExit _ => []
  | .pipelineRun r => r.calls

/-- Embedding of run() (main_debug.py lines 176-198): check_environment
exits with status 1 on a missing variable; check_directories only creates
directories and always returns True (abstracted away); a False from
test_api_connectivity (modelled by the boolean apiOk, since the body only
probes external services) exits with status 1; otherwise
run_async_execution_debug runs. -/
def run (env : String → Option String) (apiOk : Bool)
    (c : Collaborators V G A T F) (ov : String) (syms : List String) :
    FullRunOutcome V G A T :=
  match check_environment env with
  | .exitOne => .preflightExit 1
  | .passed =>
    if apiOk then .pipelineRun (run_async_execution_debug c ov syms)
    else .preflightExit 1

/-- Observable result of run_single_stock: the plain call made (none when
check_environment exited), the caught result of that call (the inner
try/except of run_single catches every processing exception), and the
process exit status. -/
structure SingleRunResult (V G A T : Type) where
  call : Option (ProcessCall V G A T)
  caughtResult : Option (Except String Unit)
  exitStatus : Nat

/-- Embedding of run_single_stock (main_debug.py lines 201-234):
check_environment may exit with status 1; otherwise the symbol is
processed inside a try/except that catches any exception and only prints
it, after which the function returns and the interpreter exits with
status 0. The output-listing block (lines 218-228) only prints and is
modelled separately by list_artifacts. -/
def run_single_stock (env : String → Option String)
    (c : Collaborators V G A T F) (symbol : String) :
    SingleRunResult V G A T :=
  match check_environment env with
  | .exitOne => ⟨none, none, 1⟩
  | .passed =>
    ⟨some (plainCall symbol), some (c.processStockSymbol (plainCall symbol)), 0⟩

/-- A filesystem abstraction for the output tree: a directory path maps to
some list of its entries, or to none when the directory does not exist. -/
def FS : Type := String → Option (List String)

/-- Guarded artifact enumeration as performed at both reporting sites
(main_debug.py lines 162-163 and 222-223): os.listdir is only called
after os.path.exists, so an absent directory yields the empty list and
never an error. -/
def list_artifacts (fs : FS) (path : String) : List String :=
  match fs path with
  | some files => files
  | none => []

/-- The per-symbol report printed at the end of a full run (main_debug.py
lines 158-164): when the dated output root exists, each symbol whose
directory exists is reported with its file count; absent symbol
directories are skipped, not errors. -/
def show_output_report (fs : FS) (root : String) (ov : String)
    (syms : List String) : List (String × Nat) :=
  match fs root with
  | none => []
  | some _ =>
    (ov :: syms).filterMap (fun s =>
      match fs (root ++ "/" ++ s) with
      | none => none
      | some files => some (s, files.length))

end TradingCrew

namespace TradingCrew

variable {V G A T F : Type}

/-- The symbol of a plain per-symbol call is the symbol it was made for. -/
theorem plainCall_symbol (s : String) :
    (plainCall s : ProcessCall V G A T).symbol = s := rfl

/-- A loop outcome is always about the symbol of its iteration, whether
the call succeeded or failed. -/
theorem loopOutcome_symbol (c : Collaborators V G A T F) (s : String) :
    (loopOutcome c s).symbol = s := by
  unfold loopOutcome
  cases c.processStockSymbol (plainCall s) with
  | error e => rfl
  | ok u => rfl

/-- Mapping each loop outcome to its symbol recovers the symbol list. -/
theorem map_loopOutcome_symbol (c : Collaborators V G A T F)
    (syms : List String) :
    (syms.map (loopOutcome c)).map Outcome.symbol = syms := by
  induction syms with
  | nil => rfl
  | cons s ss ih => simp [loopOutcome_symbol c s, ih]

/-- Mapping each plain call to its symbol recovers the symbol list. -/
theorem map_plainCall_symbol (syms : List String) :
    ((syms.map plainCall : List (ProcessCall V G A T)).map
      ProcessCall.symbol) = syms := by
  induction syms with
  | nil => rfl
  | cons s ss ih => simp [plainCall_symbol (V := V) (G := G) (A := A) (T := T) s, ih]

/-- Evaluation of the coordinator when all four setup stages and the
overview call succeed: the run records the overview call followed by one
plain call per listed symbol, one outcome per attempted symbol, and exit
status zero. -/
theorem run_async_eq_of_success (c : Collaborators V G A T F) (ov : String)
    (syms : List String) (v : V) (gm : G) (ag : A) (tk : T) (f : F)
    (h1 : c.getVix = .ok v) (h2 : c.getGlobalMarket = .ok gm)
    (h3 : c.getAgentAndTask = .ok (ag, tk)) (h4 : c.getTimegptForecast = .ok f)
    (h5 : c.processStockSymbol (overviewCall ov v gm ag tk) = .ok ()) :
    run_async_execution_debug c ov syms =
      ⟨overviewCall ov v gm ag tk :: syms.map plainCall,
       Outcome.success ov :: syms.map (loopOutcome c), 0⟩ := by
  simp [run_async_execution_debug, h1, h2, h3, h4, h5]

/-- Evaluation of the coordinator when the setup stages succeed but the
overview call raises: only the overview call was made, no outcome is
recorded and the process exits with status one. -/
theorem run_async_eq_of_overview_error (c : Collaborators V G A T F)
    (ov : String) (syms : List String) (v : V) (gm : G) (ag : A) (tk : T)
    (f : F) (e : String)
    (h1 : c.getVix = .ok v) (h2 : c.getGlobalMarket = .ok gm)
    (h3 : c.getAgentAndTask = .ok (ag, tk)) (h4 : c.getTimegptForecast = .ok f)
    (h5 : c.processStockSymbol (overviewCall ov v gm ag tk) = .error e) :
    run_async_execution_debug c ov syms =
      ⟨[overviewCall ov v gm ag tk], [], 1⟩ := by
  simp [run_async_execution_debug, h1, h2, h3, h4, h5]

/-- Claim C1: partial-failure isolation. When setup and the overview step
succeed, a plain call is made for every symbol of the list in order with
no early exit, the outcome sequence records one outcome per symbol, and
any symbol whose call raises is recorded as a Failed outcome carrying the
exception text while the loop continues. -/
theorem partial_failure_isolation (c : Collaborators V G A T F) (ov : String)
    (syms : List String) (v : V) (gm : G) (ag : A) (tk : T) (f : F)
    (h1 : c.getVix = .ok v) (h2 : c.getGlobalMarket = .ok gm)
    (h3 : c.getAgentAndTask = .ok (ag, tk)) (h4 : c.getTimegptForecast = .ok f)
    (h5 : c.processStockSymbol (overviewCall ov v gm ag tk) = .ok ()) :
    (run_async_execution_debug c ov syms).calls =
      overviewCall ov v gm ag tk :: syms.map plainCall ∧
    (run_async_execution_debug c ov syms).outcomes =
      Outcome.success ov :: syms.map (loopOutcome c) ∧
    ∀ s e, s ∈ syms → c.processStockSymbol (plainCall s) = .error e →
      Outcome.failed s e ∈ (run_async_execution_debug c ov syms).outcomes := by
  have hrun := run_async_eq_of_success c ov syms v gm ag tk f h1 h2 h3 h4 h5
  refine ⟨by rw [hrun], by rw [hrun], ?_⟩
  intro s e hs he
  rw [hrun]
  exact List.mem_cons_of_mem _
    (List.mem_map.mpr ⟨s, hs, by simp [loopOutcome, he]⟩)

/-- A run configuration in which only the AAPL call raises; used to
witness the isolation and shape theorems on a concrete input. -/
def mixedCollab : Collaborators Nat Nat Nat Nat Nat :=
  ⟨.ok 0, .ok 0, .ok (0, 0), .ok 0,
   fun k => if k.symbol == "AAPL" then .error ("rate limited") else .ok ()⟩

/-- Witness for claim C1 at a concrete input: with symbols AAPL and MSFT
and AAPL raising, the outcomes are overview success, AAPL failed, MSFT
success. -/
theorem partial_failure_isolation_witness :
    (run_async_execution_debug mixedCollab ("SPY") ["AAPL", "MSFT"]).outcomes =
      Outcome.success ("SPY") ::
        List.map (loopOutcome mixedCollab) ["AAPL", "MSFT"] :=
  (partial_failure_isolation mixedCollab ("SPY") ["AAPL", "MSFT"] 0 0 0 0 0
    rfl rfl rfl rfl rfl).2.1

/-- Claim C2: fail-fast setup. If any of the setup fetches raises (VIX,
global market, analyst factory, forecast), the whole run aborts: no
process-stock-symbol call is made, no outcome is recorded, and the
process exits with status one. -/
theorem setup_failure_aborts_run (c : Collaborators V G A T F) (ov : String)
    (syms : List String)
    (h : c.getVix.isOk = false ∨ c.getGlobalMarket.isOk = false ∨
         c.getAgentAndTask.isOk = false ∨ c.getTimegptForecast.isOk = false) :
    run_async_execution_debug c ov syms = ⟨[], [], 1⟩ := by
  unfold run_async_execution_debug
  cases hv : c.getVix with
  | error e => rfl
  | ok v =>
    cases hg : c.getGlobalMarket with
    | error e => rfl
    | ok gm =>
      cases ha : c.getAgentAndTask with
      | error e => rfl
      | ok p =>
        cases hf : c.getTimegptForecast with
        | error e => rfl
        | ok f =>
          exfalso
          rcases h with h | h | h | h <;>
            simp [hv, hg, ha, hf, Except.isOk, Except.toBool] at h

/-- A run configuration whose VIX fetch raises. -/
def badVixCollab : Collaborators Nat Nat Nat Nat Nat :=
  ⟨.error ("vix down"), .ok 0, .ok (0, 0), .ok 0, fun _ => .ok ()⟩

/-- Witness for claim C2 at a concrete input: a failing VIX fetch yields
no calls, no outcomes, exit status one. -/
theorem setup_failure_aborts_run_witness :
    run_async_execution_debug badVixCollab ("SPY") ["AAPL"] = ⟨[], [], 1⟩ :=
  setup_failure_aborts_run badVixCollab ("SPY") ["AAPL"] (Or.inl rfl)

/-- Claim C3: overview-step fatality. When all setup stages succeed but
the overview call raises, the run aborts immediately: the overview symbol
is the only one a call was made for, no outcome is recorded, and the
process exits with status one. -/
theorem overview_failure_aborts_run (c : Collaborators V G A T F)
    (ov : String) (syms : List String) (v : V) (gm : G) (ag : A) (tk : T)
    (f : F) (e : String)
    (h1 : c.getVix = .ok v) (h2 : c.getGlobalMarket = .ok gm)
    (h3 : c.getAgentAndTask = .ok (ag, tk)) (h4 : c.getTimegptForecast = .ok f)
    (h5 : c.processStockSymbol (overviewCall ov v gm ag tk) = .error e) :
    (run_async_execution_debug c ov syms).calls.map ProcessCall.symbol = [ov] ∧
    (run_async_execution_debug c ov syms).outcomes = [] ∧
    (run_async_execution_debug c ov syms).exitStatus = 1 := by
  have hrun := run_async_eq_of_overview_error c ov syms v gm ag tk f e
    h1 h2 h3 h4 h5
  exact ⟨by rw [hrun]; rfl, by rw [hrun], by rw [hrun]⟩

/-- A run configuration in which exactly the context-carrying overview
call raises. -/
def badOverviewCollab : Collaborators Nat Nat Nat Nat Nat :=
  ⟨.ok 0, .ok 0, .ok (0, 0), .ok 0,
   fun k => if k.vixData.isSome then .error ("overview down") else .ok ()⟩

/-- Witness for claim C3 at a concrete input. -/
theorem overview_failure_aborts_run_witness :
    (run_async_execution_debug badOverviewCollab ("SPY")
        ["AAPL"]).calls.map ProcessCall.symbol = ["SPY"] ∧
    (run_async_execution_debug badOverviewCollab ("SPY") ["AAPL"]).outcomes
        = [] ∧
    (run_async_execution_debug badOverviewCollab ("SPY")
        ["AAPL"]).exitStatus = 1 :=
  overview_failure_aborts_run badOverviewCollab ("SPY") ["AAPL"] 0 0 0 0 0
    ("overview down") rfl rfl rfl rfl rfl

/-- Claim C4: run-summary shape and order. For a successful setup and
overview step and a non-empty symbol list, the outcome sequence has
length one plus the list length, and both the outcomes and the calls are
about the overview symbol first and then the listed symbols in list
order, each list entry exactly once. -/
theorem run_summary_shape (c : Collaborators V G A T F) (ov : String)
    (syms : List String) (v : V) (gm : G) (ag : A) (tk : T) (f : F)
    (h1 : c.getVix = .ok v) (h2 : c.getGlobalMarket = .ok gm)
    (h3 : c.getAgentAndTask = .ok (ag, tk)) (h4 : c.getTimegptForecast = .ok f)
    (h5 : c.processStockSymbol (overviewCall ov v gm ag tk) = .ok ())
    (hne : syms ≠ []) :
    (run_async_execution_debug c ov syms).outcomes.length = 1 + syms.length ∧
    (run_async_execution_debug c ov syms).outcomes.map Outcome.symbol =
      ov :: syms ∧
    (run_async_execution_debug c ov syms).calls.map ProcessCall.symbol =
      ov :: syms := by
  have hrun := run_async_eq_of_success c ov syms v gm ag tk f h1 h2 h3 h4 h5
  refine ⟨?_, ?_, ?_⟩
  · rw [hrun]
    simp [Nat.add_comm]
  · rw [hrun]
    rw [List.map_cons, map_loopOutcome_symbol]
    rfl
  · rw [hrun]
    rw [List.map_cons, map_plainCall_symbol]
    rfl

/-- Witness for claim C4 at a concrete input. -/
theorem run_summary_shape_witness :
    (run_async_execution_debug mixedCollab ("SPY")
        ["AAPL", "MSFT"]).outcomes.length = 1 + 2 ∧
    (run_async_execution_debug mixedCollab ("SPY")
        ["AAPL", "MSFT"]).outcomes.map Outcome.symbol = ["SPY", "AAPL", "MSFT"] ∧
    (run_async_execution_debug mixedCollab ("SPY")
        ["AAPL", "MSFT"]).calls.map ProcessCall.symbol = ["SPY", "AAPL", "MSFT"] :=
  run_summary_shape mixedCollab ("SPY") ["AAPL", "MSFT"] 0 0 0 0 0
    rfl rfl rfl rfl rfl (by decide)

/-- Claim C5: exit-status contract. The process exit status of a run is
one exactly when a fatal error occurred (a setup stage or the overview
call raised) and zero otherwise, regardless of how many per-symbol loop
iterations failed. -/
theorem exit_status_contract (c : Collaborators V G A T F) (ov : String)
    (syms : List String) :
    (run_async_execution_debug c ov syms).exitStatus =
      if fatalError c ov then 1 else 0 := by
  cases hv : c.getVix with
  | error e => simp [run_async_execution_debug, fatalError, hv]
  | ok v =>
    cases hg : c.getGlobalMarket with
    | error e => simp [run_async_execution_debug, fatalError, hv, hg]
    | ok gm =>
      cases ha : c.getAgentAndTask with
      | error e => simp [run_async_execution_debug, fatalError, hv, hg, ha]
      | ok p =>
        cases hf : c.getTimegptForecast with
        | error e => simp [run_async_execution_debug, fatalError, hv, hg, ha, hf]
        | ok f =>
          cases hp : c.processStockSymbol (overviewCall ov v gm p.1 p.2) with
          | error e =>
            simp [run_async_execution_debug, fatalError, hv, hg, ha, hf, hp,
              Except.toBool]
          | ok u =>
            simp [run_async_execution_debug, fatalError, hv, hg, ha, hf, hp,
              Except.toBool]

/-- Claim C6: context exclusivity. Whenever the setup stages succeed, the
first call of the run is the overview call carrying the market context
and the analyst agent and task, and every later call carries no VIX data,
no global market data, and empty extra agent and task lists. -/
theorem context_exclusivity (c : Collaborators V G A T F) (ov : String)
    (syms : List String) (v : V) (gm : G) (ag : A) (tk : T) (f : F)
    (h1 : c.getVix = .ok v) (h2 : c.getGlobalMarket = .ok gm)
    (h3 : c.getAgentAndTask = .ok (ag, tk)) (h4 : c.getTimegptForecast = .ok f) :
    (run_async_execution_debug c ov syms).calls.head? =
      some (overviewCall ov v gm ag tk) ∧
    ∀ k ∈ (run_async_execution_debug c ov syms).calls.drop 1,
      k.vixData = none ∧ k.globalMarketData = none ∧
      k.additionalAgents = [] ∧ k.additionalTasks = [] := by
  cases h5 : c.processStockSymbol (overviewCall ov v gm ag tk) with
  | error e =>
    have hrun := run_async_eq_of_overview_error c ov syms v gm ag tk f e
      h1 h2 h3 h4 h5
    refine ⟨by rw [hrun]; rfl, ?_⟩
    intro k hk
    rw [hrun] at hk
    simp at hk
  | ok u =>
    cases u
    have hrun := run_async_eq_of_success c ov syms v gm ag tk f h1 h2 h3 h4 h5
    refine ⟨by rw [hrun]; rfl, ?_⟩
    intro k hk
    rw [hrun] at hk
    simp only [List.drop_succ_cons, List.drop_zero, List.mem_map] at hk
    obtain ⟨s, hs, rfl⟩ := hk
    exact ⟨rfl, rfl, rfl, rfl⟩

/-- Witness for claim C6 at a concrete input. -/
theorem context_exclusivity_witness :
    (run_async_execution_debug mixedCollab ("SPY")
        ["AAPL", "MSFT"]).calls.head? = some (overviewCall ("SPY") 0 0 0 0) :=
  (context_exclusivity mixedCollab ("SPY") ["AAPL", "MSFT"] 0 0 0 0 0
    rfl rfl rfl rfl).1

/-- Claim C7: artifact enumeration on an absent directory. For any run
output root and symbol whose dated directory was never created, the
guarded enumeration returns the empty sequence, and the end-of-run report
contains no entry for that symbol while still being produced (listing a
missing directory is a normal state, never an error). -/
theorem absent_directory_lists_empty (fs : FS) (root s : String)
    (h : fs (root ++ "/" ++ s) = none) :
    list_artifacts fs (root ++ "/" ++ s) = [] ∧
    ∀ ov syms n, (s, n) ∉ show_output_report fs root ov syms := by
  constructor
  · unfold list_artifacts
    rw [h]
  · intro ov syms n hmem
    unfold show_output_report at hmem
    cases hr : fs root with
    | none =>
      rw [hr] at hmem
      simp at hmem
    | some entries =>
      rw [hr] at hmem
      simp only [List.mem_filterMap] at hmem
      obtain ⟨a, _, ha⟩ := hmem
      cases hd : fs (root ++ "/" ++ a) with
      | none => rw [hd] at ha; simp at ha
      | some files =>
        rw [hd] at ha
        simp at ha
        obtain ⟨rfl, _⟩ := ha
        rw [h] at hd
        exact Option.noConfusion hd

/-- A filesystem in which no directory exists. -/
def emptyFS : FS := fun _ => none

/-- Witness for claim C7 at a concrete input. -/
theorem absent_directory_lists_empty_witness :
    list_artifacts emptyFS ("output/agents_outputs/2025-06-01" ++ "/" ++ "AAPL")
      = [] :=
  (absent_directory_lists_empty emptyFS ("output/agents_outputs/2025-06-01")
    ("AAPL") rfl).1

/-- Claim C8: pre-flight gating. If any of the six required environment
variables is unset, or the API-connectivity test fails, the full entry
point exits with status one during pre-flight and no
process-stock-symbol call (hence no market-data fetch or symbol
processing) ever occurs. -/
theorem preflight_gating (env : String → Option String) (apiOk : Bool)
    (c : Collaborators V G A T F) (ov : String) (syms : List String)
    (h : (∃ v ∈ required_vars, env v = none) ∨ apiOk = false) :
    run env apiOk c ov syms = .preflightExit 1 ∧
    (run env apiOk c ov syms).callsMade = [] := by
  have hrun : run env apiOk c ov syms = .preflightExit 1 := by
    rcases h with ⟨v, hv, hnone⟩ | hapi
    · have hmem : v ∈ missing_vars env :=
        List.mem_filter.mpr ⟨hv, by simp [envTruthy, hnone]⟩
      have hne : missing_vars env ≠ [] := List.ne_nil_of_mem hmem
      unfold run check_environment
      rw [if_neg hne]
    · subst hapi
      unfold run
      cases check_environment env with
      | exitOne => rfl
      | passed => simp
  exact ⟨hrun, by rw [hrun]; rfl⟩

/-- An environment in which no variable is set. -/
def envNone : String → Option String := fun _ => none

/-- A run configuration used only to instantiate witnesses of the
entry-point theorems; every collaborator succeeds. -/
def goodCollab : Collaborators Nat Nat Nat Nat Nat :=
  ⟨.ok 0, .ok 0, .ok (0, 0), .ok 0, fun _ => .ok ()⟩

/-- Witness for claim C8 at a concrete input. -/
theorem preflight_gating_witness :
    run envNone true goodCollab ("SPY") ["AAPL"] =
      FullRunOutcome.preflightExit 1 :=
  (preflight_gating envNone true goodCollab ("SPY") ["AAPL"]
    (Or.inl ⟨"OPENROUTER_API_KEY", by decide, rfl⟩)).1

/-- Claim C9: single-stock mode swallows processing failures. When the
environment check passes and the processing of the requested symbol
raises, run_single_stock still makes the plain call, catches the
exception, and the process terminates with exit status zero. -/
theorem single_stock_swallows_failure (env : String → Option String)
    (c : Collaborators V G A T F) (s e : String)
    (henv : check_environment env = .passed)
    (hfail : c.processStockSymbol (plainCall s) = .error e) :
    (run_single_stock env c s).exitStatus = 0 ∧
    (run_single_stock env c s).call = some (plainCall s) ∧
    (run_single_stock env c s).caughtResult = some (Except.error e) := by
  unfold run_single_stock
  rw [henv]
  exact ⟨rfl, rfl, by rw [hfail]⟩

/-- An environment in which every variable is set to a non-empty value. -/
def envAll : String → Option String := fun _ => some ("key")

/-- A run configuration whose symbol processing always raises. -/
def failCollab : Collaborators Nat Nat Nat Nat Nat :=
  ⟨.ok 0, .ok 0, .ok (0, 0), .ok 0, fun _ => .error ("network down")⟩

/-- Witness for claim C9 at a concrete input. -/
theorem single_stock_swallows_failure_witness :
    (run_single_stock envAll failCollab ("AAPL")).exitStatus = 0 :=
  (single_stock_swallows_failure envAll failCollab ("AAPL") ("network down")
    rfl rfl).1

end TradingCrew

namespace VerifySetup

/-- The key-masking expression of check_env_file (verify_setup.py line
69): values longer than 8 characters print as the first four characters,
a literal ellipsis, and the last four characters; shorter values print
as three asterisks. -/
def mask_key (value : String) : String :=
  if value.length > 8 then value.take 4 ++ "..." ++ value.takeRight 4
  else "***"

/-- Claim C10: API-key masking. A key longer than eight characters prints
as exactly its first four characters, the literal ellipsis, and its last
four characters; any other key prints as three asterisks; and the printed
form of a long key is fully determined by its first and last four
characters, so the interior characters never reach the output. -/
theorem mask_key_contract :
    (∀ v : String, v.length ≤ 8 → mask_key v = "***") ∧
    (∀ v : String, 8 < v.length →
        mask_key v = v.take 4 ++ "..." ++ v.takeRight 4) ∧
    (∀ v w : String, 8 < v.length → 8 < w.length → v.take 4 = w.take 4 →
        v.takeRight 4 = w.takeRight 4 → mask_key v = mask_key w) := by
  refine ⟨?_, ?_, ?_⟩
  · intro v hv
    unfold mask_key
    rw [if_neg (by omega)]
  · intro v hv
    unfold mask_key
    rw [if_pos hv]
  · intro v w hv hw hpre hsuf
    unfold mask_key
    rw [if_pos hv, if_pos hw, hpre, hsuf]

/-- Witness for claim C10 at concrete inputs: a twelve-character key and
a five-character key. -/
theorem mask_key_contract_witness :
    mask_key ("abcdefghijkl") = "abcd" ++ "..." ++ "ijkl" ∧
    mask_key ("short") = "***" := by
  constructor
  · rw [mask_key_contract.2.1 ("abcdefghijkl") (by decide)]
    decide
  · exact mask_key_contract.1 ("short") (by decide)

end VerifySetup
